import Mathlib

/-!
Shallow embedding of the SwipeClean photo-triage app (React Native / Expo,
TypeScript).  The embedded functions follow the current app implementation,
the second iteration contained in `src/unnamed/part_001` (the `SwipeCleanApp`
entry file): `shuffleArray`, `loadPhotos`, `loadRemainingPhotosInBackground`,
`handleSwipeComplete`, `handleUndo`, `deletePhoto`, `restorePhoto`,
`restorePhotoFromTrash`, `loadTrashedPhotos`, `saveTrashedPhotosMetadata`,
`confirmEmptyTrash`, `getTotalTrashSize`.  The earlier iteration kept at the
repository root (`src/App.tsx`) is embedded separately under `legacy` names
where a claim refers to it.

Modelling conventions:
- React `useState` variables become fields of `AppState`; each event handler
  is a function `... → AppState → AppState` (the app is single-threaded and
  the handlers run to completion in our sequential denotation).
- The file system is a list of `(path, size)` pairs; `FileSystem.copyAsync`
  overwrites the destination, `deleteAsync` removes it.
- The persisted ledger file `trash_metadata.json` is `Option (List
  TrashedPhoto)` (`none` = file absent).
- The platform media store (`expo-media-library`) is the list of asset ids
  still present (`mediaLib`); `MediaLibrary.deleteAssetsAsync` removes ids.
- External effects a handler consumes are an `Env`: `Date.now()` and
  `getAssetInfoAsync`/`copyAsync`/`getInfoAsync` collapse to `assetBytes :
  String → Option Nat` (accessible asset id ↦ byte size of its file; `none`
  models a missing/unreadable asset, which makes `deletePhoto` throw and the
  surrounding `catch` leave the state unchanged).
- `storageFreed` is kept, exactly as in the source, in megabytes as an exact
  rational: `deletePhoto` adds `fileSize / (1024*1024)`; JavaScript float
  division is modelled as exact division on `ℚ`.
- `Math.random()`-driven shuffling takes the random draws as a function
  `rand : Nat → Nat`; step `i` of Fisher–Yates uses `rand i % (i+1)`, the
  range `Math.floor(Math.random() * (i + 1))` produces.
-/

/-- `Photo` of the source: `{id, uri, filename}`. -/
structure Photo where
  id : String
  uri : String
  filename : String
deriving DecidableEq

/-- `TrashedPhoto` of the source: a `Photo` spread plus
`{trashedAt, trashPath, originalId, size}` (`size` in bytes). -/
structure TrashedPhoto where
  id : String
  uri : String
  filename : String
  trashedAt : Nat
  trashPath : String
  originalId : String
  size : Nat
deriving DecidableEq

/-- Swipe direction delivered to `handleSwipeComplete`. -/
inductive Direction where
  | left
  | right
deriving DecidableEq

/-- The source's `previousAction` values `'keep' | 'delete'`. -/
inductive PrevAction where
  | keep
  | delete
deriving DecidableEq

/-- External effects consumed by one handler invocation. -/
structure Env where
  now : Nat
  assetBytes : String → Option Nat

/-- `FileSystem.documentDirectory`. -/
def documentDirectory : String := "file:///data/"

/-- `TRASH_DIR = documentDirectory + "trash/"`. -/
def TRASH_DIR : String := documentDirectory ++ "trash/"

/-- The `useState` variables of the app component that the claims are about,
plus the environment state the handlers read and write (files, persisted
ledger, platform media store). -/
structure AppState where
  photos : List Photo
  currentPhotoIndex : Nat
  storageFreed : ℚ
  photosProcessed : Nat
  trashedPhotos : List TrashedPhoto
  canUndo : Bool
  previousPhoto : Option Photo
  previousAction : Option PrevAction
  fs : List (String × Nat)
  persisted : Option (List TrashedPhoto)
  mediaLib : List String
deriving DecidableEq

/-- `FileSystem.getInfoAsync(path).exists` over the modelled file list. -/
def fileExistsB (fs : List (String × Nat)) (path : String) : Bool :=
  fs.any (fun pr => pr.1 == path)

/-- The trash destination `TRASH_DIR + timestamp + "_" + filename` that
`deletePhoto` computes. -/
def trashPathOf (env : Env) (photo : Photo) : String :=
  TRASH_DIR ++ (toString env.now ++ "_" ++ photo.filename)

/-- The `TrashedPhoto` record built by `deletePhoto`: the photo spread plus
`trashedAt`, `trashPath`, `originalId` (the source writes
``photo.id || `photo-${timestamp}` `` to keep it non-empty) and `size` in
bytes; `uri` is re-pointed at the trash copy. -/
def trashEntryOf (env : Env) (photo : Photo) (fileSize : Nat) : TrashedPhoto :=
  { id := photo.id
    uri := trashPathOf env photo
    filename := photo.filename
    trashedAt := env.now
    trashPath := trashPathOf env photo
    originalId := if photo.id = "" then "photo-" ++ toString env.now else photo.id
    size := fileSize }

/-- `deletePhoto(photo)` of `src/unnamed/part_001` (lines 2428-2492): validate,
skip if already trashed, copy the asset's bytes to
`TRASH_DIR/${timestamp}_${filename}`, add the copied size (in MB) to
`storageFreed`, append one `TrashedPhoto` and persist the ledger.  The media
store is never touched.  Any thrown error (invalid photo, inaccessible asset)
is caught and leaves the state unchanged. -/
def deletePhoto (env : Env) (photo : Photo) (s : AppState) : AppState :=
  if photo.id = "" ∨ photo.filename = "" then s
  else if s.trashedPhotos.any (fun tp => tp.originalId == photo.id) then s
  else
    match env.assetBytes photo.id with
    | none => s
    | some fileSize =>
      { s with
          fs := (trashPathOf env photo, fileSize) ::
            s.fs.filter (fun pr => pr.1 != trashPathOf env photo)
          storageFreed := s.storageFreed + (fileSize : ℚ) / (1024 * 1024)
          trashedPhotos := s.trashedPhotos ++ [trashEntryOf env photo fileSize]
          persisted := some (s.trashedPhotos ++ [trashEntryOf env photo fileSize]) }

/-- `restorePhoto(trashedPhoto)` (lines 2561-2584): delete the private copy
file if it exists, drop the ledger entries whose `trashedAt` equals the given
entry's, persist the trimmed ledger.  Note the source filters by `trashedAt`,
not by `originalId`, and never touches `storageFreed`. -/
def restorePhoto (trashedPhoto : TrashedPhoto) (s : AppState) : AppState :=
  let fs1 := if fileExistsB s.fs trashedPhoto.trashPath then
      s.fs.filter (fun pr => pr.1 != trashedPhoto.trashPath)
    else s.fs
  let updatedTrashedPhotos :=
    s.trashedPhotos.filter (fun tp => tp.trashedAt != trashedPhoto.trashedAt)
  { s with
      fs := fs1
      trashedPhotos := updatedTrashedPhotos
      persisted := some updatedTrashedPhotos }

/-- `restorePhotoFromTrash(photo)`: find the entry by `originalId`, restore it;
no-op when the photo has no live entry. -/
def restorePhotoFromTrash (photo : Photo) (s : AppState) : AppState :=
  match s.trashedPhotos.find? (fun tp => tp.originalId == photo.id) with
  | some trashedPhoto => restorePhoto trashedPhoto s
  | none => s

/-- `handleSwipeComplete(direction)` (lines 2364-2393): guard
`currentPhotoIndex >= photos.length`; record the undo slot; on a left swipe
run `deletePhoto`; increment `photosProcessed` and `currentPhotoIndex`. -/
def handleSwipeComplete (env : Env) (direction : Direction) (s : AppState) : AppState :=
  if s.photos.length ≤ s.currentPhotoIndex then s
  else
    match s.photos.get? s.currentPhotoIndex with
    | none => s
    | some currentPhoto =>
      let s1 := { s with
        previousPhoto := some currentPhoto
        previousAction := some (match direction with
          | .left => PrevAction.delete
          | .right => PrevAction.keep)
        canUndo := true }
      let s2 := match direction with
        | .left => deletePhoto env currentPhoto s1
        | .right => s1
      { s2 with
          photosProcessed := s2.photosProcessed + 1
          currentPhotoIndex := s2.currentPhotoIndex + 1 }

/-- `handleUndo()` (lines 2395-2426): guarded no-op when `!canUndo`, no
recorded photo/action, or `currentPhotoIndex === 0`.  For an undone delete it
looks the entry up (before restore clears it), restores, and subtracts
`trashedPhoto.size` — the size in BYTES — from the MB counter `storageFreed`,
floored at zero via `Math.max(0, ...)`; then cursor and processed count go
back by one and the undo slot is cleared. -/
def handleUndo (s : AppState) : AppState :=
  if !s.canUndo then s
  else match s.previousPhoto, s.previousAction with
  | some previousPhoto, some previousAction =>
    if s.currentPhotoIndex = 0 then s
    else
      let s1 := match previousAction with
        | .delete =>
          let found := s.trashedPhotos.find?
            (fun tp : TrashedPhoto => tp.originalId == previousPhoto.id)
          let s2 := restorePhotoFromTrash previousPhoto s
          match found with
          | some trashedPhoto =>
            if trashedPhoto.size ≠ 0 then
              { s2 with storageFreed := max 0 (s2.storageFreed - (trashedPhoto.size : ℚ)) }
            else s2
          | none => s2
        | .keep => s
      { s1 with
          currentPhotoIndex := s1.currentPhotoIndex - 1
          photosProcessed := s1.photosProcessed - 1
          canUndo := false
          previousPhoto := none
          previousAction := none }
  | _, _ => s

/-- One pass of `validTrashedPhotos` accumulation in `loadTrashedPhotos`
(lines 2505-2550): skip entries with an empty `originalId`, skip duplicates of
an id already kept, keep entries whose backing file exists (only then is the
id added to `seenIds`). -/
def validateEntries (fs : List (String × Nat)) :
    List TrashedPhoto → List String → List TrashedPhoto
  | [], _ => []
  | tp :: rest, seen =>
    if tp.originalId = "" then validateEntries fs rest seen
    else if seen.contains tp.originalId then validateEntries fs rest seen
    else if fileExistsB fs tp.trashPath then
      tp :: validateEntries fs rest (tp.originalId :: seen)
    else validateEntries fs rest seen

/-- `loadTrashedPhotos()` (startup, lines 2505-2550): read the persisted
metadata file if it exists, keep only valid entries whose file still exists,
and re-persist the trimmed list when its length changed. -/
def loadTrashedPhotos (s : AppState) : AppState :=
  match s.persisted with
  | none => s
  | some metadata =>
    let validTrashedPhotos := validateEntries s.fs metadata []
    let s1 := { s with trashedPhotos := validTrashedPhotos }
    if validTrashedPhotos.length ≠ metadata.length then
      { s1 with persisted := some validTrashedPhotos }
    else s1

/-- `getTotalTrashSize()`: sum of entry sizes in bytes divided by `1024*1024`
(the source additionally formats the number with `toFixed(2)` for display; we
keep the exact rational). -/
def getTotalTrashSize (s : AppState) : ℚ :=
  ((s.trashedPhotos.foldl (fun sum photo => sum + photo.size) 0 : Nat) : ℚ) / (1024 * 1024)

/-- Result triple of `confirmEmptyTrash`: the local variables `successCount`,
`failedCount` and `sizeInMB` it computes and reports. -/
structure PurgeResult where
  successCount : Nat
  failedCount : Nat
  sizeInMB : ℚ
deriving DecidableEq

/-- `originalPhotoIds` computed in `confirmEmptyTrash`:
`trashedPhotos.map(p => p.originalId).filter(id => id)` (JS truthiness drops
the empty string). -/
def originalIdsOf (s : AppState) : List String :=
  (s.trashedPhotos.map (fun tp => tp.originalId)).filter (fun i => i != "")

/-- `confirmEmptyTrash()` (lines 2673-2726).  The per-item platform outcome is
the parameter `fails : String → Bool`; the single
`MediaLibrary.deleteAssetsAsync(originalPhotoIds)` call is modelled as
succeeding (removing every id from the store) when no id fails and as
throwing (removing nothing) when some id fails — the source's `catch` then
sets `failedCount` to ALL ids.  Afterwards, unconditionally: the trash
directory is wiped (every file under `TRASH_DIR` deleted, directory
recreated), `trashedPhotos` is cleared and the empty ledger persisted. -/
def confirmEmptyTrash (fails : String → Bool) (s : AppState) : AppState × PurgeResult :=
  let sizeInMB := getTotalTrashSize s
  let originalPhotoIds := originalIdsOf s
  let outcome :=
    if 0 < originalPhotoIds.length then
      if originalPhotoIds.any fails then
        (0, originalPhotoIds.length, s.mediaLib)
      else
        (originalPhotoIds.length, 0,
          s.mediaLib.filter (fun m => !(originalPhotoIds.contains m)))
    else (0, 0, s.mediaLib)
  let fs1 := s.fs.filter (fun pr => !(TRASH_DIR.isPrefixOf pr.1))
  ({ s with
      fs := fs1
      trashedPhotos := []
      persisted := some []
      mediaLib := outcome.2.2 },
    { successCount := outcome.1, failedCount := outcome.2.1, sizeInMB := sizeInMB })

/-- Swap of two positions of a list, the JS destructuring assignment
`[a[i], a[j]] = [a[j], a[i]]` (total: out-of-range indices leave the list
unchanged, which never happens in the shuffle loop). -/
def swapL (l : List Photo) (i j : Nat) : List Photo :=
  match l.get? i, l.get? j with
  | some x, some y => (l.set i y).set j x
  | _, _ => l

/-- The loop of `shuffleArray` (Fisher–Yates, lines 2059-2066): for `i` from
`length-1` down to `1`, swap position `i` with `j = rand i % (i+1)`. -/
def fyAux (rand : Nat → Nat) : Nat → List Photo → List Photo
  | 0, a => a
  | i + 1, a => fyAux rand i (swapL a (i + 1) (rand (i + 1) % (i + 2)))

/-- `shuffleArray(array)`: copy, then the Fisher–Yates loop. -/
def shuffleArray (rand : Nat → Nat) (l : List Photo) : List Photo :=
  fyAux rand (l.length - 1) l

/-- The `while (currentOffset < totalCount)` loop of
`loadRemainingPhotosInBackground` (lines 2278-2313): fetch the next page of at
most 50 assets (`page(offset, limit)` of the external store, modelled as a
slice of the creation-time-ordered `source` list), drop assets whose id has a
live trash entry, append.  `fuel` bounds the recursion; `source.length` steps
always suffice. -/
def loadLoop (trashedIds : List String) (source : List Photo) :
    Nat → List Photo → Nat → List Photo
  | 0, photos, _ => photos
  | fuel + 1, photos, currentOffset =>
    if currentOffset < source.length then
      let batchSize := min 50 (source.length - currentOffset)
      let batch := (source.drop currentOffset).take batchSize
      let batchPhotos := batch.filter (fun p => !(trashedIds.contains p.id))
      loadLoop trashedIds source fuel (photos ++ batchPhotos) (currentOffset + batchSize)
    else photos

/-- `loadRemainingPhotosInBackground(alreadyLoaded, totalCount)`: run the
paging loop, then shuffle the entire accumulated array once. -/
def loadRemainingPhotosInBackground (randFinal : Nat → Nat) (trashedIds : List String)
    (source : List Photo) (alreadyLoaded : Nat) (photos : List Photo) : List Photo :=
  shuffleArray randFinal (loadLoop trashedIds source source.length photos alreadyLoaded)

/-- `loadPhotos()` (lines 2241-2276) composed with its background continuation:
load the first `min 50 total` assets, filter out live-trashed ids, shuffle the
initial page, and when more assets exist hand over to
`loadRemainingPhotosInBackground`.  Returns the final `photos` array once
`photosLoadedSoFar == totalPhotosFound` (ingestion complete). -/
def loadPhotos (randInitial randFinal : Nat → Nat) (trashedPhotos : List TrashedPhoto)
    (source : List Photo) : List Photo :=
  let totalCount := source.length
  let INITIAL_BATCH_SIZE := 50
  let initialBatchSize := min INITIAL_BATCH_SIZE totalCount
  let firstBatch := source.take initialBatchSize
  let trashedIds := trashedPhotos.map (fun tp => tp.originalId)
  let initialPhotos := firstBatch.filter (fun p => !(trashedIds.contains p.id))
  let shuffledInitial := shuffleArray randInitial initialPhotos
  if INITIAL_BATCH_SIZE < totalCount then
    loadRemainingPhotosInBackground randFinal trashedIds source initialBatchSize shuffledInitial
  else shuffledInitial

/-- `TrashedPhoto` of the earlier iteration at the repository root
(`src/App.tsx`): no `size` field. -/
structure LegacyTrashedPhoto where
  id : String
  uri : String
  filename : String
  trashedAt : Nat
  trashPath : String
  originalId : String
deriving DecidableEq

/-- The state touched by the legacy `deletePhoto` of `src/App.tsx`. -/
structure LegacyState where
  trashedPhotos : List LegacyTrashedPhoto
  fs : List (String × Nat)
  persisted : Option (List LegacyTrashedPhoto)
  mediaLib : List String
deriving DecidableEq

/-- `deletePhoto(photo)` of the earlier iteration `src/App.tsx` (lines
319-362): copy the photo's bytes into the trash folder, append a ledger entry,
persist — and then `await MediaLibrary.deleteAssetsAsync([photo.id])`: the
original IS removed from the platform media store at remove time. -/
def legacyDeletePhoto (env : Env) (photo : Photo) (s : LegacyState) : LegacyState :=
  let timestamp := env.now
  let trashFileName := toString timestamp ++ "_" ++ photo.filename
  let trashPath := TRASH_DIR ++ trashFileName
  match env.assetBytes photo.id with
  | none => s
  | some fileSize =>
    let trashedPhoto : LegacyTrashedPhoto :=
      { id := photo.id
        uri := trashPath
        filename := photo.filename
        trashedAt := timestamp
        trashPath := trashPath
        originalId := photo.id }
    { s with
        fs := (trashPath, fileSize) :: s.fs.filter (fun pr => pr.1 != trashPath)
        trashedPhotos := s.trashedPhotos ++ [trashedPhoto]
        persisted := some (s.trashedPhotos ++ [trashedPhoto])
        mediaLib := s.mediaLib.filter (fun m => !(m == photo.id)) }

/-! ### Shared concrete inputs for witnesses and counterexamples -/

/-- Sample photo 1. -/
def pEx1 : Photo := { id := "p1", uri := "u1", filename := "a.jpg" }

/-- Sample photo 2. -/
def pEx2 : Photo := { id := "p2", uri := "u2", filename := "b.jpg" }

/-- Environment at time 1 where both sample assets hold 1 MiB of bytes. -/
def envEx1 : Env :=
  { now := 1
    assetBytes := fun i => if i == "p1" ∨ i == "p2" then some 1048576 else none }

/-- Environment at time 2 where both sample assets hold 1 MiB of bytes. -/
def envEx2 : Env :=
  { now := 2
    assetBytes := fun i => if i == "p1" ∨ i == "p2" then some 1048576 else none }

/-- Fresh session state: both sample photos loaded, nothing trashed. -/
def sEx0 : AppState :=
  { photos := [pEx1, pEx2]
    currentPhotoIndex := 0
    storageFreed := 0
    photosProcessed := 0
    trashedPhotos := []
    canUndo := false
    previousPhoto := none
    previousAction := none
    fs := []
    persisted := some []
    mediaLib := ["p1", "p2"] }

/-! ### Frame lemmas for the part_001 handlers -/

theorem deletePhoto_photos (env : Env) (photo : Photo) (s : AppState) :
    (deletePhoto env photo s).photos = s.photos := by
  unfold deletePhoto
  repeat' split
  all_goals rfl

theorem deletePhoto_currentPhotoIndex (env : Env) (photo : Photo) (s : AppState) :
    (deletePhoto env photo s).currentPhotoIndex = s.currentPhotoIndex := by
  unfold deletePhoto
  repeat' split
  all_goals rfl

theorem deletePhoto_photosProcessed (env : Env) (photo : Photo) (s : AppState) :
    (deletePhoto env photo s).photosProcessed = s.photosProcessed := by
  unfold deletePhoto
  repeat' split
  all_goals rfl

theorem deletePhoto_canUndo (env : Env) (photo : Photo) (s : AppState) :
    (deletePhoto env photo s).canUndo = s.canUndo := by
  unfold deletePhoto
  repeat' split
  all_goals rfl

theorem deletePhoto_previousPhoto (env : Env) (photo : Photo) (s : AppState) :
    (deletePhoto env photo s).previousPhoto = s.previousPhoto := by
  unfold deletePhoto
  repeat' split
  all_goals rfl

theorem deletePhoto_previousAction (env : Env) (photo : Photo) (s : AppState) :
    (deletePhoto env photo s).previousAction = s.previousAction := by
  unfold deletePhoto
  repeat' split
  all_goals rfl

theorem deletePhoto_mediaLib (env : Env) (photo : Photo) (s : AppState) :
    (deletePhoto env photo s).mediaLib = s.mediaLib := by
  unfold deletePhoto
  repeat' split
  all_goals rfl

theorem restorePhoto_mediaLib (tp : TrashedPhoto) (s : AppState) :
    (restorePhoto tp s).mediaLib = s.mediaLib := rfl

theorem restorePhoto_storageFreed (tp : TrashedPhoto) (s : AppState) :
    (restorePhoto tp s).storageFreed = s.storageFreed := rfl

theorem restorePhotoFromTrash_mediaLib (photo : Photo) (s : AppState) :
    (restorePhotoFromTrash photo s).mediaLib = s.mediaLib := by
  unfold restorePhotoFromTrash
  split
  · exact restorePhoto_mediaLib _ _
  · rfl

theorem restorePhotoFromTrash_storageFreed (photo : Photo) (s : AppState) :
    (restorePhotoFromTrash photo s).storageFreed = s.storageFreed := by
  unfold restorePhotoFromTrash
  split
  · exact restorePhoto_storageFreed _ _
  · rfl

theorem handleUndo_mediaLib (s : AppState) :
    (handleUndo s).mediaLib = s.mediaLib := by
  unfold handleUndo
  repeat' split
  all_goals try simp [restorePhotoFromTrash_mediaLib]
  all_goals repeat' split
  all_goals simp [restorePhotoFromTrash_mediaLib]

theorem handleSwipeComplete_mediaLib (env : Env) (direction : Direction) (s : AppState) :
    (handleSwipeComplete env direction s).mediaLib = s.mediaLib := by
  unfold handleSwipeComplete
  repeat' split
  all_goals simp [deletePhoto_mediaLib]

theorem loadTrashedPhotos_mediaLib (s : AppState) :
    (loadTrashedPhotos s).mediaLib = s.mediaLib := by
  unfold loadTrashedPhotos
  dsimp only
  repeat' split
  all_goals rfl

/-! ### C10: out-of-range swipe is a total no-op -/

/-- C10: whenever `currentPhotoIndex >= photos.length`, `handleSwipeComplete`
returns immediately: no asset is read past the end of `photos` and the ledger,
counters, cursor and undo record are all left exactly as they were (the whole
state is unchanged). -/
theorem c10_swipe_past_end_noop (env : Env) (direction : Direction) (s : AppState)
    (h : s.photos.length ≤ s.currentPhotoIndex) :
    handleSwipeComplete env direction s = s := by
  unfold handleSwipeComplete
  rw [if_pos h]

/-- State whose cursor sits past the end of the loaded sequence. -/
def sPastEnd : AppState := { sEx0 with currentPhotoIndex := 5 }

/-- C10 witness: the guard hypothesis holds at `sPastEnd` and the handler is a
no-op there. -/
theorem c10_swipe_past_end_noop_witness :
    sPastEnd.photos.length ≤ sPastEnd.currentPhotoIndex ∧
    handleSwipeComplete envEx1 Direction.left sPastEnd = sPastEnd :=
  ⟨by decide, c10_swipe_past_end_noop envEx1 Direction.left sPastEnd (by decide)⟩

/-! ### C7: the undo record is single-slot -/

theorem handleUndo_of_not_canUndo (s : AppState) (h : s.canUndo = false) :
    handleUndo s = s := by
  unfold handleUndo
  rw [h]
  rfl

theorem handleUndo_of_previousPhoto_none (s : AppState) (h : s.previousPhoto = none) :
    handleUndo s = s := by
  unfold handleUndo
  rw [h]
  repeat' split
  all_goals first | rfl | simp_all

theorem handleUndo_of_previousAction_none (s : AppState) (h : s.previousAction = none) :
    handleUndo s = s := by
  unfold handleUndo
  rw [h]
  repeat' split
  all_goals first | rfl | simp_all

theorem handleUndo_of_cursor_zero (s : AppState) (h : s.currentPhotoIndex = 0) :
    handleUndo s = s := by
  unfold handleUndo
  repeat' split
  all_goals rfl

theorem handleUndo_canUndo_or_noop (s : AppState) :
    (handleUndo s).canUndo = false ∨ handleUndo s = s := by
  unfold handleUndo
  repeat' split
  all_goals simp

theorem handleSwipeComplete_slot (env : Env) (direction : Direction) (s : AppState)
    (h : s.currentPhotoIndex < s.photos.length) :
    (handleSwipeComplete env direction s).canUndo = true ∧
    (handleSwipeComplete env direction s).previousPhoto = s.photos.get? s.currentPhotoIndex ∧
    (handleSwipeComplete env direction s).previousAction =
      some (match direction with
        | .left => PrevAction.delete
        | .right => PrevAction.keep) := by
  unfold handleSwipeComplete
  rw [if_neg (by omega)]
  cases hg : s.photos.get? s.currentPhotoIndex with
  | none =>
    rw [List.get?_eq_none] at hg
    omega
  | some currentPhoto =>
    cases direction <;>
      simp [deletePhoto_canUndo, deletePhoto_previousPhoto, deletePhoto_previousAction]

/-- C7: the undo record is single-slot.  `handleUndo` is a total no-op when
the slot is empty (`canUndo` cleared or no recorded photo/action) or when the
cursor is at position 0; every decision (`handleSwipeComplete` below the end)
overwrites the slot with the current photo and direction; and a successful
undo clears the slot, so undoing twice in a row equals undoing once. -/
theorem c7_undo_single_slot :
    (∀ s : AppState, s.canUndo = false → handleUndo s = s) ∧
    (∀ s : AppState, s.previousPhoto = none → handleUndo s = s) ∧
    (∀ s : AppState, s.previousAction = none → handleUndo s = s) ∧
    (∀ s : AppState, s.currentPhotoIndex = 0 → handleUndo s = s) ∧
    (∀ (env : Env) (direction : Direction) (s : AppState),
      s.currentPhotoIndex < s.photos.length →
      (handleSwipeComplete env direction s).canUndo = true ∧
      (handleSwipeComplete env direction s).previousPhoto = s.photos.get? s.currentPhotoIndex ∧
      (handleSwipeComplete env direction s).previousAction =
        some (match direction with
          | .left => PrevAction.delete
          | .right => PrevAction.keep)) ∧
    (∀ s : AppState, handleUndo (handleUndo s) = handleUndo s) := by
  refine ⟨handleUndo_of_not_canUndo, handleUndo_of_previousPhoto_none,
    handleUndo_of_previousAction_none, handleUndo_of_cursor_zero,
    handleSwipeComplete_slot, fun s => ?_⟩
  rcases handleUndo_canUndo_or_noop s with h | h
  · exact handleUndo_of_not_canUndo _ h
  · rw [h]
    exact h

/-- C7 witness: the no-op guards, the slot overwrite and the double-undo
property at concrete states. -/
theorem c7_undo_single_slot_witness :
    (sEx0.canUndo = false ∧ handleUndo sEx0 = sEx0) ∧
    (sEx0.currentPhotoIndex < sEx0.photos.length ∧
      (handleSwipeComplete envEx1 Direction.right sEx0).canUndo = true ∧
      (handleSwipeComplete envEx1 Direction.right sEx0).previousPhoto =
        sEx0.photos.get? sEx0.currentPhotoIndex ∧
      (handleSwipeComplete envEx1 Direction.right sEx0).previousAction =
        some PrevAction.keep) ∧
    handleUndo (handleUndo (handleSwipeComplete envEx1 Direction.right sEx0)) =
      handleUndo (handleSwipeComplete envEx1 Direction.right sEx0) :=
  ⟨⟨by decide, c7_undo_single_slot.1 sEx0 (by decide)⟩,
    ⟨by decide, c7_undo_single_slot.2.2.2.2.1 envEx1 Direction.right sEx0 (by decide)⟩,
    c7_undo_single_slot.2.2.2.2.2 (handleSwipeComplete envEx1 Direction.right sEx0)⟩

/-! ### C9: purge on an empty ledger -/

/-- C9: `confirmEmptyTrash` on a state whose ledger is empty reports
`(0, 0, 0)` (no originals deleted, no failures, zero MB) and leaves the trash
directory empty: the resulting file list keeps only files outside `TRASH_DIR`,
the ledger stays empty and persisted empty, and the media store is untouched. -/
theorem c9_purge_empty_ledger (fails : String → Bool) (s : AppState)
    (h : s.trashedPhotos = []) :
    (confirmEmptyTrash fails s).2.successCount = 0 ∧
    (confirmEmptyTrash fails s).2.failedCount = 0 ∧
    (confirmEmptyTrash fails s).2.sizeInMB = 0 ∧
    (confirmEmptyTrash fails s).1.fs =
      s.fs.filter (fun pr => !(TRASH_DIR.isPrefixOf pr.1)) ∧
    (confirmEmptyTrash fails s).1.trashedPhotos = [] ∧
    (confirmEmptyTrash fails s).1.persisted = some [] ∧
    (confirmEmptyTrash fails s).1.mediaLib = s.mediaLib := by
  unfold confirmEmptyTrash getTotalTrashSize originalIdsOf
  simp [h]

/-- C9 witness: at the fresh state with an empty ledger. -/
theorem c9_purge_empty_ledger_witness :
    sEx0.trashedPhotos = [] ∧
    (confirmEmptyTrash (fun _ => false) sEx0).2.successCount = 0 ∧
    (confirmEmptyTrash (fun _ => false) sEx0).2.failedCount = 0 ∧
    (confirmEmptyTrash (fun _ => false) sEx0).2.sizeInMB = 0 :=
  ⟨by decide, (c9_purge_empty_ledger (fun _ => false) sEx0 (by decide)).1,
    (c9_purge_empty_ledger (fun _ => false) sEx0 (by decide)).2.1,
    (c9_purge_empty_ledger (fun _ => false) sEx0 (by decide)).2.2.1⟩

/-! ### C8: remove is a soft delete in the current app, but not in the legacy
root iteration -/

/-- C8 (amended): in the current implementation (`src/unnamed/part_001`) no
remove-path operation ever touches the platform media store — `deletePhoto`,
`handleSwipeComplete`, `handleUndo`, `restorePhoto`, `restorePhotoFromTrash`
and `loadTrashedPhotos` all leave `mediaLib` unchanged; only the purge
(`confirmEmptyTrash`) removes originals.  The earlier iteration at the
repository root (`src/App.tsx`) is excluded: its `deletePhoto` deletes the
original at remove time (see the counterexample). -/
theorem c8_remove_is_soft_delete :
    (∀ (env : Env) (photo : Photo) (s : AppState),
      (deletePhoto env photo s).mediaLib = s.mediaLib) ∧
    (∀ (env : Env) (direction : Direction) (s : AppState),
      (handleSwipeComplete env direction s).mediaLib = s.mediaLib) ∧
    (∀ s : AppState, (handleUndo s).mediaLib = s.mediaLib) ∧
    (∀ (tp : TrashedPhoto) (s : AppState), (restorePhoto tp s).mediaLib = s.mediaLib) ∧
    (∀ (photo : Photo) (s : AppState),
      (restorePhotoFromTrash photo s).mediaLib = s.mediaLib) ∧
    (∀ s : AppState, (loadTrashedPhotos s).mediaLib = s.mediaLib) :=
  ⟨deletePhoto_mediaLib, handleSwipeComplete_mediaLib, handleUndo_mediaLib,
    restorePhoto_mediaLib, restorePhotoFromTrash_mediaLib, loadTrashedPhotos_mediaLib⟩

/-- Legacy state for the root `src/App.tsx` iteration: both originals still in
the platform store, nothing trashed. -/
def sLeg : LegacyState :=
  { trashedPhotos := [], fs := [], persisted := some [], mediaLib := ["p1", "p2"] }

/-- C8 counterexample: in the repository's root iteration (`src/App.tsx`
`deletePhoto`, lines 319-362), removing `pEx1` creates the trash entry AND
deletes the original from the platform media store in the same step — after
the remove the original is no longer present, refuting "a remove decision
never deletes that asset from the external source collection" for that cited
source. -/
theorem c8_remove_is_soft_delete_cx :
    sLeg.mediaLib = ["p1", "p2"] ∧
    (legacyDeletePhoto envEx1 pEx1 sLeg).trashedPhotos.length = 1 ∧
    (legacyDeletePhoto envEx1 pEx1 sLeg).mediaLib = ["p2"] := by
  decide

/-! ### C5: purge accounting and unconditional cleanup -/

/-- C5 (amended): `confirmEmptyTrash` issues the one batch delete over the
non-empty original ids; its failure accounting is all-or-nothing — when the
batch call throws (some id fails) EVERY id is counted failed and none removed,
when it succeeds all ids are counted purged — and afterwards, unconditionally,
the trash directory is wiped, the ledger is cleared and persisted empty, and
the reported size is the total trash size at purge time. -/
theorem c5_purge_accounting (fails : String → Bool) (s : AppState) :
    (confirmEmptyTrash fails s).1.trashedPhotos = [] ∧
    (confirmEmptyTrash fails s).1.persisted = some [] ∧
    (confirmEmptyTrash fails s).1.fs =
      s.fs.filter (fun pr => !(TRASH_DIR.isPrefixOf pr.1)) ∧
    (confirmEmptyTrash fails s).2.sizeInMB = getTotalTrashSize s ∧
    (confirmEmptyTrash fails s).2.failedCount =
      (if (originalIdsOf s).any fails then (originalIdsOf s).length else 0) ∧
    (confirmEmptyTrash fails s).2.successCount =
      (if (originalIdsOf s).any fails then 0 else (originalIdsOf s).length) ∧
    (confirmEmptyTrash fails s).1.mediaLib =
      (if (originalIdsOf s).any fails then s.mediaLib
       else s.mediaLib.filter (fun m => !((originalIdsOf s).contains m))) := by
  unfold confirmEmptyTrash
  dsimp only
  repeat' split
  all_goals simp_all [List.length_eq_zero]

/-- Trash entry for sample photo 1 (100 bytes). -/
def tpEx1 : TrashedPhoto :=
  { id := "p1", uri := "t1", filename := "a.jpg", trashedAt := 11
    trashPath := TRASH_DIR ++ "11_a.jpg", originalId := "p1", size := 100 }

/-- Trash entry for sample photo 2 (200 bytes). -/
def tpEx2 : TrashedPhoto :=
  { id := "p2", uri := "t2", filename := "b.jpg", trashedAt := 12
    trashPath := TRASH_DIR ++ "12_b.jpg", originalId := "p2", size := 200 }

/-- State with two live trash entries and their backing files. -/
def sTwoTrashed : AppState :=
  { photos := []
    currentPhotoIndex := 0
    storageFreed := 0
    photosProcessed := 0
    trashedPhotos := [tpEx1, tpEx2]
    canUndo := false
    previousPhoto := none
    previousAction := none
    fs := [(TRASH_DIR ++ "11_a.jpg", 100), (TRASH_DIR ++ "12_b.jpg", 200)]
    persisted := some [tpEx1, tpEx2]
    mediaLib := ["p1", "p2"] }

/-- Platform outcome in which only asset `p1` is protected (fails). -/
def failsOnlyP1 : String → Bool := fun i => i == "p1"

/-- C5 counterexample: with two entries of which exactly one (`p1`) fails at
the platform, the per-item failure count is 1, but `confirmEmptyTrash` reports
`failedCount = 2` — the single `deleteAssetsAsync` call sits in one
`try/catch`, so a thrown batch counts every id as failed; the code does not
record per-item failures. -/
theorem c5_purge_accounting_cx :
    ((originalIdsOf sTwoTrashed).filter failsOnlyP1).length = 1 ∧
    (confirmEmptyTrash failsOnlyP1 sTwoTrashed).2.failedCount = 2 ∧
    (confirmEmptyTrash failsOnlyP1 sTwoTrashed).2.failedCount ≠
      ((originalIdsOf sTwoTrashed).filter failsOnlyP1).length := by
  decide

/-! ### C1: duplicate remove decisions are no-ops -/

theorem deletePhoto_of_already_trashed (env : Env) (photo : Photo) (s : AppState)
    (h : s.trashedPhotos.any (fun tp => tp.originalId == photo.id) = true) :
    deletePhoto env photo s = s := by
  unfold deletePhoto
  simp [h]

theorem deletePhoto_fresh (env : Env) (photo : Photo) (s : AppState) (fileSize : Nat)
    (hid : ¬photo.id = "") (hfn : ¬photo.filename = "")
    (hnone : s.trashedPhotos.any (fun tp => tp.originalId == photo.id) = false)
    (hB : env.assetBytes photo.id = some fileSize) :
    deletePhoto env photo s =
      { s with
          fs := (trashPathOf env photo, fileSize) ::
            s.fs.filter (fun pr => pr.1 != trashPathOf env photo)
          storageFreed := s.storageFreed + (fileSize : ℚ) / (1024 * 1024)
          trashedPhotos := s.trashedPhotos ++ [trashEntryOf env photo fileSize]
          persisted := some (s.trashedPhotos ++ [trashEntryOf env photo fileSize]) } := by
  unfold deletePhoto
  rw [if_neg (by simp [hid, hfn]), if_neg (by simp [hnone]), hB]

theorem foldl_deletePhoto_noop (photo : Photo) (envs : List Env) (st : AppState)
    (h : st.trashedPhotos.any (fun tp => tp.originalId == photo.id) = true) :
    envs.foldl (fun acc e => deletePhoto e photo acc) st = st := by
  induction envs with
  | nil => rfl
  | cons e rest ih =>
    simp only [List.foldl_cons, deletePhoto_of_already_trashed e photo st h]
    exact ih

/-- C1: starting from a state with no live entry for `photo.id`, any sequence
of one or more `deletePhoto(photo)` calls (under arbitrary later environments)
leaves exactly ONE live ledger entry whose `originalId` is `photo.id`, and the
session freed-space counter has grown by exactly one copy's size — duplicate
remove decisions neither create a second entry nor double-count freed space. -/
theorem c1_remove_dedup (env : Env) (envs : List Env) (photo : Photo) (s : AppState)
    (fileSize : Nat)
    (hid : ¬photo.id = "") (hfn : ¬photo.filename = "")
    (hnone : s.trashedPhotos.any (fun tp => tp.originalId == photo.id) = false)
    (hB : env.assetBytes photo.id = some fileSize) :
    ((envs.foldl (fun acc e => deletePhoto e photo acc)
        (deletePhoto env photo s)).trashedPhotos.filter
          (fun tp => tp.originalId == photo.id)).length = 1 ∧
    (envs.foldl (fun acc e => deletePhoto e photo acc)
        (deletePhoto env photo s)).storageFreed =
      s.storageFreed + (fileSize : ℚ) / (1024 * 1024) := by
  rw [deletePhoto_fresh env photo s fileSize hid hfn hnone hB]
  rw [foldl_deletePhoto_noop]
  · constructor
    · rw [List.filter_append]
      have h1 : s.trashedPhotos.filter (fun tp => tp.originalId == photo.id) = [] := by
        rw [List.filter_eq_nil_iff]
        intro tp htp
        have := List.any_eq_false.mp hnone tp htp
        simpa using this
      rw [h1]
      simp [trashEntryOf, hid]
    · rfl
  · simp [trashEntryOf, hid]

/-- C1 witness: two successive remove decisions for `pEx1` (at times 1 and 2)
leave one ledger entry and one MiB of freed space counted once. -/
theorem c1_remove_dedup_witness :
    (¬pEx1.id = "") ∧
    (sEx0.trashedPhotos.any (fun tp => tp.originalId == pEx1.id) = false) ∧
    (envEx1.assetBytes pEx1.id = some 1048576) ∧
    (([envEx2].foldl (fun acc e => deletePhoto e pEx1 acc)
        (deletePhoto envEx1 pEx1 sEx0)).trashedPhotos.filter
          (fun tp => tp.originalId == pEx1.id)).length = 1 ∧
    ([envEx2].foldl (fun acc e => deletePhoto e pEx1 acc)
        (deletePhoto envEx1 pEx1 sEx0)).storageFreed =
      sEx0.storageFreed + ((1048576 : Nat) : ℚ) / (1024 * 1024) :=
  ⟨by decide, by decide, by decide,
    (c1_remove_dedup envEx1 [envEx2] pEx1 sEx0 1048576 (by decide) (by decide)
      (by decide) (by decide)).1,
    (c1_remove_dedup envEx1 [envEx2] pEx1 sEx0 1048576 (by decide) (by decide)
      (by decide) (by decide)).2⟩

/-! ### C2: remove-then-restore round trip -/

/-- C2 (amended): for an asset with no live entry, fresh timestamp and fresh
trash path, `deletePhoto` followed by `restorePhotoFromTrash` returns the
in-memory ledger, the persisted ledger and the file system to their pre-remove
state, and the private copy file no longer exists — but the session
freed-space counter is NOT returned to its pre-remove value: `restorePhoto`
never touches `storageFreed`, so it stays higher by the copy's size (the
decrement exists only in the undo path, `handleUndo`). -/
theorem c2_restore_round_trip (env : Env) (photo : Photo) (s : AppState) (fileSize : Nat)
    (hid : ¬photo.id = "") (hfn : ¬photo.filename = "")
    (hnone : s.trashedPhotos.any (fun tp => tp.originalId == photo.id) = false)
    (hB : env.assetBytes photo.id = some fileSize)
    (hts : ∀ tp ∈ s.trashedPhotos, tp.trashedAt ≠ env.now)
    (hfs : ∀ pr ∈ s.fs, pr.1 ≠ trashPathOf env photo)
    (hsync : s.persisted = some s.trashedPhotos) :
    (restorePhotoFromTrash photo (deletePhoto env photo s)).trashedPhotos =
      s.trashedPhotos ∧
    (restorePhotoFromTrash photo (deletePhoto env photo s)).persisted = s.persisted ∧
    (restorePhotoFromTrash photo (deletePhoto env photo s)).fs = s.fs ∧
    fileExistsB (restorePhotoFromTrash photo (deletePhoto env photo s)).fs
      (trashPathOf env photo) = false ∧
    (restorePhotoFromTrash photo (deletePhoto env photo s)).storageFreed =
      s.storageFreed + (fileSize : ℚ) / (1024 * 1024) := by
  rw [deletePhoto_fresh env photo s fileSize hid hfn hnone hB]
  have hfind : (s.trashedPhotos ++ [trashEntryOf env photo fileSize]).find?
      (fun tp => tp.originalId == photo.id) = some (trashEntryOf env photo fileSize) := by
    rw [List.find?_append]
    have h1 : s.trashedPhotos.find? (fun tp => tp.originalId == photo.id) = none := by
      rw [List.find?_eq_none]
      intro tp htp
      have := List.any_eq_false.mp hnone tp htp
      simpa using this
    rw [h1]
    simp [trashEntryOf, hid]
  unfold restorePhotoFromTrash
  dsimp only
  rw [hfind]
  unfold restorePhoto
  dsimp only
  have hfilterTrash :
      (s.trashedPhotos ++ [trashEntryOf env photo fileSize]).filter
        (fun tp => tp.trashedAt != (trashEntryOf env photo fileSize).trashedAt) =
      s.trashedPhotos := by
    rw [List.filter_append]
    have h2 : s.trashedPhotos.filter
        (fun tp => tp.trashedAt != (trashEntryOf env photo fileSize).trashedAt) =
        s.trashedPhotos := by
      rw [List.filter_eq_self]
      intro tp htp
      have := hts tp htp
      simp [trashEntryOf]
      exact this
    rw [h2]
    simp [trashEntryOf]
  have hfsExists : fileExistsB
      ((trashPathOf env photo, fileSize) ::
        s.fs.filter (fun pr => pr.1 != trashPathOf env photo))
      (trashEntryOf env photo fileSize).trashPath = true := by
    simp [fileExistsB, trashEntryOf]
  have hfsAll : s.fs.filter (fun pr => pr.1 != trashPathOf env photo) = s.fs := by
    rw [List.filter_eq_self]
    intro pr hpr
    simpa using hfs pr hpr
  have hNoPath : s.fs.any (fun pr => pr.1 == trashPathOf env photo) = false := by
    rw [List.any_eq_false]
    intro pr hpr
    simpa using hfs pr hpr
  have hTrashEq : (trashEntryOf env photo fileSize).trashPath = trashPathOf env photo := rfl
  have hfs2 : ((trashPathOf env photo, fileSize) ::
      s.fs.filter (fun pr => pr.1 != trashPathOf env photo)).filter
        (fun pr => pr.1 != (trashEntryOf env photo fileSize).trashPath) = s.fs := by
    rw [hTrashEq, List.filter_cons]
    simp only [bne_self_eq_false, Bool.false_eq_true, if_false, List.filter_filter,
      Bool.and_self]
    exact hfsAll
  refine ⟨hfilterTrash, ?_, ?_, ?_, rfl⟩
  · rw [hfilterTrash, hsync]
  · rw [if_pos hfsExists]
    exact hfs2
  · rw [if_pos hfsExists, hfs2]
    exact hNoPath

/-- C2 counterexample: at the fresh state (freed counter 0), removing `pEx1`
(1 MiB copy) and then restoring it by id returns the ledger to its pre-remove
state, but the freed-space counter reads 1 MB, not its pre-remove value 0 —
`restorePhoto` does not decrement the counter, refuting "returns the ledger
AND the session freed-bytes counter to their pre-remove values". -/
theorem c2_restore_round_trip_cx :
    (restorePhotoFromTrash pEx1 (deletePhoto envEx1 pEx1 sEx0)).trashedPhotos =
      sEx0.trashedPhotos ∧
    sEx0.storageFreed = 0 ∧
    (restorePhotoFromTrash pEx1 (deletePhoto envEx1 pEx1 sEx0)).storageFreed = 1 ∧
    (restorePhotoFromTrash pEx1 (deletePhoto envEx1 pEx1 sEx0)).storageFreed ≠
      sEx0.storageFreed := by
  have h1 : (restorePhotoFromTrash pEx1 (deletePhoto envEx1 pEx1 sEx0)).storageFreed = 1 := by
    simp [restorePhotoFromTrash, restorePhoto, deletePhoto, trashPathOf, trashEntryOf,
      sEx0, envEx1, pEx1, fileExistsB, TRASH_DIR, documentDirectory]
    norm_num
  refine ⟨by decide, rfl, h1, ?_⟩
  rw [h1, show sEx0.storageFreed = (0 : ℚ) from rfl]
  norm_num

/-- C2 witness for the amended round-trip theorem: concrete instance with all
hypotheses discharged. -/
theorem c2_restore_round_trip_witness :
    (¬pEx1.id = "" ∧ (sEx0.trashedPhotos.any (fun tp => tp.originalId == pEx1.id) = false) ∧
      envEx1.assetBytes pEx1.id = some 1048576 ∧
      (∀ tp ∈ sEx0.trashedPhotos, tp.trashedAt ≠ envEx1.now) ∧
      (∀ pr ∈ sEx0.fs, pr.1 ≠ trashPathOf envEx1 pEx1) ∧
      sEx0.persisted = some sEx0.trashedPhotos) ∧
    (restorePhotoFromTrash pEx1 (deletePhoto envEx1 pEx1 sEx0)).trashedPhotos =
      sEx0.trashedPhotos ∧
    (restorePhotoFromTrash pEx1 (deletePhoto envEx1 pEx1 sEx0)).persisted =
      sEx0.persisted ∧
    (restorePhotoFromTrash pEx1 (deletePhoto envEx1 pEx1 sEx0)).fs = sEx0.fs ∧
    fileExistsB (restorePhotoFromTrash pEx1 (deletePhoto envEx1 pEx1 sEx0)).fs
      (trashPathOf envEx1 pEx1) = false ∧
    (restorePhotoFromTrash pEx1 (deletePhoto envEx1 pEx1 sEx0)).storageFreed =
      sEx0.storageFreed + ((1048576 : Nat) : ℚ) / (1024 * 1024) :=
  ⟨⟨by decide, by decide, by decide, by decide, by decide, by decide⟩,
    (c2_restore_round_trip envEx1 pEx1 sEx0 1048576 (by decide) (by decide) (by decide)
      (by decide) (by decide) (by decide) (by decide)).1,
    (c2_restore_round_trip envEx1 pEx1 sEx0 1048576 (by decide) (by decide) (by decide)
      (by decide) (by decide) (by decide) (by decide)).2.1,
    (c2_restore_round_trip envEx1 pEx1 sEx0 1048576 (by decide) (by decide) (by decide)
      (by decide) (by decide) (by decide) (by decide)).2.2.1,
    (c2_restore_round_trip envEx1 pEx1 sEx0 1048576 (by decide) (by decide) (by decide)
      (by decide) (by decide) (by decide) (by decide)).2.2.2.1,
    (c2_restore_round_trip envEx1 pEx1 sEx0 1048576 (by decide) (by decide) (by decide)
      (by decide) (by decide) (by decide) (by decide)).2.2.2.2⟩

/-! ### C3: decision followed by undo -/

/-- State after swiping left (remove) on `pEx1` at time 1. -/
def sAfterFirst : AppState := handleSwipeComplete envEx1 Direction.left sEx0

/-- State after additionally swiping left (remove) on `pEx2` at time 2. -/
def sAfterSecond : AppState := handleSwipeComplete envEx2 Direction.left sAfterFirst

/-- State after undoing the second remove. -/
def sAfterUndo : AppState := handleUndo sAfterSecond

/-- C3 (failing-input evaluation): each removed copy is 1 MiB = 1048576 bytes,
so after two removes the freed counter (kept in MB) reads 2, and the second
entry's recorded size is 1048576.  Undoing the second remove restores the
ledger (only `p1`'s entry stays), returns cursor and processed count to their
pre-decision values — but the counter drops to 0, not to 1: `handleUndo`
subtracts `trashedPhoto.size` (bytes) from the MB counter and floors at 0,
instead of subtracting the entry's size expressed in the counter's unit.  The
claim (and spec §4.3) say the counter is decremented by exactly that entry's
recorded size, which from 2 MB would leave 1 MB — the first photo's still
freed copy. -/
theorem c3_undo_freed_units_bug :
    sAfterFirst.storageFreed = 1 ∧
    sAfterSecond.storageFreed = 2 ∧
    (sAfterSecond.trashedPhotos.map (fun tp => tp.originalId) = ["p1", "p2"] ∧
      sAfterSecond.trashedPhotos.map (fun tp => tp.size) = [1048576, 1048576]) ∧
    (sAfterUndo.trashedPhotos.map (fun tp => tp.originalId) = ["p1"] ∧
      sAfterUndo.currentPhotoIndex = sAfterFirst.currentPhotoIndex ∧
      sAfterUndo.photosProcessed = sAfterFirst.photosProcessed ∧
      sAfterUndo.canUndo = false) ∧
    sAfterUndo.storageFreed = 0 ∧
    sAfterSecond.storageFreed - ((1048576 : Nat) : ℚ) / (1024 * 1024) = 1 ∧
    sAfterUndo.storageFreed ≠
      sAfterSecond.storageFreed - ((1048576 : Nat) : ℚ) / (1024 * 1024) := by
  have h1 : sAfterFirst.storageFreed = 1 := by
    simp [sAfterFirst, handleSwipeComplete, deletePhoto, trashPathOf, trashEntryOf,
      sEx0, envEx1, pEx1, pEx2]
    norm_num
  have h2 : sAfterSecond.storageFreed = 2 := by
    simp [sAfterSecond, sAfterFirst, handleSwipeComplete, deletePhoto, trashPathOf,
      trashEntryOf, sEx0, envEx1, envEx2, pEx1, pEx2]
    norm_num
  have h3 : sAfterUndo.storageFreed = 0 := by
    simp [sAfterUndo, sAfterSecond, sAfterFirst, handleUndo, handleSwipeComplete,
      deletePhoto, restorePhotoFromTrash, restorePhoto, trashPathOf, trashEntryOf,
      sEx0, envEx1, envEx2, pEx1, pEx2, fileExistsB, TRASH_DIR, documentDirectory]
    norm_num
  refine ⟨h1, h2, ⟨by decide, by decide⟩, ⟨by decide, by decide, by decide, by decide⟩,
    h3, ?_, ?_⟩
  · rw [h2]
    norm_num
  · rw [h3, h2]
    norm_num

/-! ### C6: restart durability / self-healing load -/

theorem filter_not_length (p : TrashedPhoto → Bool) (l : List TrashedPhoto) :
    (l.filter p).length + (l.filter (fun x => !(p x))).length = l.length := by
  induction l with
  | nil => rfl
  | cons x rest ih =>
    cases hx : p x <;> simp [List.filter_cons, hx] <;> omega

theorem validateEntries_eq (fs : List (String × Nat)) (entries : List TrashedPhoto) :
    ∀ seen : List String,
    entries.Pairwise (fun a b => a.originalId ≠ b.originalId) →
    (∀ tp ∈ entries, tp.originalId ≠ "") →
    (∀ tp ∈ entries, seen.contains tp.originalId = false) →
    validateEntries fs entries seen =
      entries.filter (fun tp => fileExistsB fs tp.trashPath) := by
  induction entries with
  | nil =>
    intro seen _ _ _
    rfl
  | cons tp rest ih =>
    intro seen hpw hne hseen
    unfold validateEntries
    rw [if_neg (hne tp (List.mem_cons_self tp rest))]
    rw [if_neg (by simpa using hseen tp (List.mem_cons_self tp rest))]
    rw [List.filter_cons]
    cases hex : fileExistsB fs tp.trashPath with
    | true =>
      simp only [if_pos rfl]
      rw [List.pairwise_cons] at hpw
      have hrest2 := ih (tp.originalId :: seen) hpw.2
        (fun t ht => hne t (List.mem_cons_of_mem tp ht))
        (fun t ht => by
          simp only [List.contains_cons, Bool.or_eq_false_iff, beq_eq_false_iff_ne, ne_eq]
          exact ⟨fun hc => (hpw.1 t ht) hc.symm, hseen t (List.mem_cons_of_mem tp ht)⟩)
      rw [hrest2]
      simp
    | false =>
      simp only [Bool.false_eq_true, if_false]
      rw [List.pairwise_cons] at hpw
      exact ih seen hpw.2 (fun t ht => hne t (List.mem_cons_of_mem tp ht))
        (fun t ht => hseen t (List.mem_cons_of_mem tp ht))

/-- C6: on startup, for a persisted ledger of N entries (distinct, non-empty
ids — the ledger invariant) of which K have a missing backing file, the loaded
ledger is exactly the N−K entries whose file still exists, its length is
N minus K, and the ledger file ends up holding exactly that trimmed list:
re-persisted when K ≥ 1, and already equal to it (no rewrite needed) when
K = 0. -/
theorem c6_restart_durability (s : AppState) (entries : List TrashedPhoto)
    (hp : s.persisted = some entries)
    (hpw : entries.Pairwise (fun a b => a.originalId ≠ b.originalId))
    (hne : ∀ tp ∈ entries, tp.originalId ≠ "") :
    (loadTrashedPhotos s).trashedPhotos =
      entries.filter (fun tp => fileExistsB s.fs tp.trashPath) ∧
    (loadTrashedPhotos s).trashedPhotos.length =
      entries.length - (entries.filter (fun tp => !(fileExistsB s.fs tp.trashPath))).length ∧
    (loadTrashedPhotos s).persisted =
      some (entries.filter (fun tp => fileExistsB s.fs tp.trashPath)) := by
  have hvalid : validateEntries s.fs entries [] =
      entries.filter (fun tp => fileExistsB s.fs tp.trashPath) :=
    validateEntries_eq s.fs entries [] hpw hne (fun _ _ => rfl)
  have hload : loadTrashedPhotos s =
      (let validTrashedPhotos := validateEntries s.fs entries []
       let s1 := { s with trashedPhotos := validTrashedPhotos }
       if validTrashedPhotos.length ≠ entries.length then
         { s1 with persisted := some validTrashedPhotos }
       else s1) := by
    unfold loadTrashedPhotos
    rw [hp]
  rw [hload]
  dsimp only
  rw [hvalid]
  have hlen := filter_not_length (fun tp => fileExistsB s.fs tp.trashPath) entries
  constructor
  · split <;> rfl
  constructor
  · split <;> (dsimp only; omega)
  · split
    · rfl
    · rename_i hlex
      dsimp only
      rw [hp]
      have hall : ∀ tp ∈ entries, fileExistsB s.fs tp.trashPath = true := by
        rw [← List.filter_length_eq_length]
        omega
      rw [List.filter_eq_self.mpr hall]

/-- Three-entry persisted ledger whose middle backing file is missing. -/
def tpEx3 : TrashedPhoto :=
  { id := "p3", uri := "t3", filename := "c.jpg", trashedAt := 13
    trashPath := TRASH_DIR ++ "13_c.jpg", originalId := "p3", size := 300 }

/-- Startup state: the ledger file holds three entries but only the files of
`tpEx1` and `tpEx3` still exist. -/
def sReload : AppState :=
  { photos := []
    currentPhotoIndex := 0
    storageFreed := 0
    photosProcessed := 0
    trashedPhotos := []
    canUndo := false
    previousPhoto := none
    previousAction := none
    fs := [(TRASH_DIR ++ "11_a.jpg", 100), (TRASH_DIR ++ "13_c.jpg", 300)]
    persisted := some [tpEx1, tpEx2, tpEx3]
    mediaLib := ["p1", "p2", "p3"] }

/-- C6 witness: N = 3 persisted entries, K = 1 missing file; the load keeps
exactly the two surviving entries and the ledger file is trimmed to them. -/
theorem c6_restart_durability_witness :
    (sReload.persisted = some [tpEx1, tpEx2, tpEx3] ∧
      [tpEx1, tpEx2, tpEx3].Pairwise (fun a b => a.originalId ≠ b.originalId)) ∧
    (loadTrashedPhotos sReload).trashedPhotos =
      [tpEx1, tpEx2, tpEx3].filter (fun tp => fileExistsB sReload.fs tp.trashPath) ∧
    (loadTrashedPhotos sReload).trashedPhotos.length =
      [tpEx1, tpEx2, tpEx3].length -
        ([tpEx1, tpEx2, tpEx3].filter (fun tp => !(fileExistsB sReload.fs tp.trashPath))).length ∧
    (loadTrashedPhotos sReload).persisted =
      some ([tpEx1, tpEx2, tpEx3].filter (fun tp => fileExistsB sReload.fs tp.trashPath)) ∧
    ([tpEx1, tpEx2, tpEx3].filter (fun tp => fileExistsB sReload.fs tp.trashPath)).length = 2 :=
  ⟨⟨by decide, by decide⟩,
    (c6_restart_durability sReload [tpEx1, tpEx2, tpEx3] (by decide) (by decide) (by decide)).1,
    (c6_restart_durability sReload [tpEx1, tpEx2, tpEx3] (by decide) (by decide) (by decide)).2.1,
    (c6_restart_durability sReload [tpEx1, tpEx2, tpEx3] (by decide) (by decide) (by decide)).2.2,
    by decide⟩

/-! ### C4: catalog completeness after full ingestion -/

theorem set_cons_perm : ∀ (t : List Photo) (k : Nat) (a x : Photo),
    t.get? k = some x → (x :: t.set k a).Perm (a :: t) := by
  intro t
  induction t with
  | nil =>
    intro k a x h
    simp at h
  | cons b t ih =>
    intro k a x h
    cases k with
    | zero =>
      simp at h
      subst h
      exact List.Perm.swap a b t
    | succ k =>
      simp only [List.get?_cons_succ] at h
      exact (List.Perm.swap b x _).trans (((ih k a x h).cons b).trans (List.Perm.swap a b t))

theorem swap_set_perm : ∀ (l : List Photo) (i j : Nat) (x y : Photo),
    l.get? i = some x → l.get? j = some y → ((l.set i y).set j x).Perm l := by
  intro l
  induction l with
  | nil =>
    intro i j x y h
    simp at h
  | cons a t ih =>
    intro i j x y hi hj
    cases i with
    | zero =>
      simp at hi
      subst hi
      cases j with
      | zero =>
        simp at hj
        subst hj
        exact List.Perm.refl _
      | succ j =>
        simp only [List.get?_cons_succ] at hj
        exact set_cons_perm t j a y hj
    | succ i =>
      simp only [List.get?_cons_succ] at hi
      cases j with
      | zero =>
        simp at hj
        subst hj
        exact set_cons_perm t i a x hi
      | succ j =>
        simp only [List.get?_cons_succ] at hj
        exact (ih i j x y hi hj).cons a

theorem swapL_perm (l : List Photo) (i j : Nat) : (swapL l i j).Perm l := by
  unfold swapL
  split
  · rename_i x y hx hy
    exact swap_set_perm l i j x y hx hy
  · exact List.Perm.refl l

theorem fyAux_perm (rand : Nat → Nat) : ∀ (n : Nat) (l : List Photo),
    (fyAux rand n l).Perm l := by
  intro n
  induction n with
  | zero =>
    intro l
    exact List.Perm.refl l
  | succ n ih =>
    intro l
    exact (ih _).trans (swapL_perm l (n + 1) (rand (n + 1) % (n + 2)))

theorem shuffleArray_perm (rand : Nat → Nat) (l : List Photo) :
    (shuffleArray rand l).Perm l :=
  fyAux_perm rand (l.length - 1) l

theorem loadLoop_eq (trashedIds : List String) (source : List Photo) :
    ∀ (fuel currentOffset : Nat) (photos : List Photo),
    source.length - currentOffset ≤ fuel →
    loadLoop trashedIds source fuel photos currentOffset =
      photos ++ (source.drop currentOffset).filter (fun p => !(trashedIds.contains p.id)) := by
  intro fuel
  induction fuel with
  | zero =>
    intro currentOffset photos h
    rw [List.drop_eq_nil_of_le (by omega)]
    simp [loadLoop]
  | succ fuel ih =>
    intro currentOffset photos h
    unfold loadLoop
    split
    · rename_i hlt
      dsimp only
      rw [ih (currentOffset + min 50 (source.length - currentOffset)) _ (by omega)]
      rw [List.append_assoc, ← List.filter_append]
      have hsplit : (source.drop currentOffset).take (min 50 (source.length - currentOffset)) ++
          source.drop (currentOffset + min 50 (source.length - currentOffset)) =
          source.drop currentOffset := by
        rw [← List.drop_drop]
        exact List.take_append_drop _ _
      rw [hsplit]
    · rename_i hge
      rw [List.drop_eq_nil_of_le (by omega)]
      simp

/-- C4: once ingestion completes (`photosLoadedSoFar == totalPhotosFound`),
the working randomized sequence is a permutation of exactly the source assets
minus those with a live trash entry at ingestion start, for every random
seed of the page-local and final global shuffles; and when the source ids are
distinct the resulting sequence has no duplicate ids. -/
theorem c4_catalog_complete (randInitial randFinal : Nat → Nat)
    (trashedPhotos : List TrashedPhoto) (source : List Photo)
    (h : (source.map (fun p => p.id)).Nodup) :
    (loadPhotos randInitial randFinal trashedPhotos source).Perm
      (source.filter
        (fun p => !((trashedPhotos.map (fun tp => tp.originalId)).contains p.id))) ∧
    ((loadPhotos randInitial randFinal trashedPhotos source).map (fun p => p.id)).Nodup := by
  have hperm : (loadPhotos randInitial randFinal trashedPhotos source).Perm
      (source.filter
        (fun p => !((trashedPhotos.map (fun tp => tp.originalId)).contains p.id))) := by
    unfold loadPhotos
    dsimp only
    split
    · rename_i hbig
      unfold loadRemainingPhotosInBackground
      rw [loadLoop_eq _ _ source.length (min 50 source.length) _ (by omega)]
      refine (shuffleArray_perm _ _).trans ?_
      refine ((shuffleArray_perm _ _).append_right _).trans ?_
      rw [← List.filter_append, List.take_append_drop]
    · rename_i hsmall
      have hmin : min 50 source.length = source.length := by omega
      rw [hmin, List.take_length]
      exact shuffleArray_perm _ _
  refine ⟨hperm, ?_⟩
  have hids := hperm.map (fun p => p.id)
  have hsub : List.Sublist
      ((source.filter
        (fun p => !((trashedPhotos.map (fun tp => tp.originalId)).contains p.id))).map
          (fun p => p.id))
      (source.map (fun p => p.id)) :=
    (List.filter_sublist _).map _
  exact (hids.symm).nodup (hsub.nodup h)

/-- C4 witness: a two-asset source with `p1` live-trashed; the completed
ingestion is a permutation of (here, exactly) `[pEx2]`, with no duplicate ids. -/
theorem c4_catalog_complete_witness :
    (([pEx1, pEx2].map (fun p => p.id)).Nodup) ∧
    (loadPhotos (fun _ => 0) (fun _ => 0) [tpEx1] [pEx1, pEx2]).Perm
      ([pEx1, pEx2].filter
        (fun p => !(([tpEx1].map (fun tp => tp.originalId)).contains p.id))) ∧
    ((loadPhotos (fun _ => 0) (fun _ => 0) [tpEx1] [pEx1, pEx2]).map
      (fun p => p.id)).Nodup ∧
    loadPhotos (fun _ => 0) (fun _ => 0) [tpEx1] [pEx1, pEx2] = [pEx2] :=
  ⟨by decide,
    (c4_catalog_complete (fun _ => 0) (fun _ => 0) [tpEx1] [pEx1, pEx2] (by decide)).1,
    (c4_catalog_complete (fun _ => 0) (fun _ => 0) [tpEx1] [pEx1, pEx2] (by decide)).2,
    by decide⟩
